import Mathlib

/-!
Verification of the facility-hygiene core of the Trinity-Hackathon repository.

The definitions below are a shallow embedding of the Python sources:
  - `enhanced_auth_app_20251225173555.py` (namespace `EnhancedApp`),
  - `staff_app_20251225190723.py`        (namespace `StaffApp`),
  - `public_app_20251225182524.py`       (namespace `PublicApp`).

Conventions of the embedding:
  - timestamps and probability rolls are rationals (`ℚ`); Python float
    literals are written as exact fractions (0.15 = 3/20, ...);
  - scores are `Int` (Python ints);
  - `random.random()` / `random.randint(a,b)` draws are passed explicitly
    through the `TickDraws` oracle record (the `randint` range constraints
    become the `TickDraws.Valid` hypothesis);
  - Flask endpoints become functions acting on the toilet record they
    look up; 404 lookup failures are factored out by passing the record
    directly; HTTP error responses become `Except Nat` error codes;
  - dictionaries with optional keys become structures with `Option`
    fields; fresh UUID `id` fields of update dicts are omitted (they are
    never read by any of the code under proof).
-/

namespace Trinity

/-- One entry of the `toilets_data` registry list.  Field `category` is the
source dict key `'type'`; display-only fields (`lat`, `lng`, `address`,
`reviews`, `path_points`, `next_scheduled`) are omitted - no code under
proof reads them. -/
structure Toilet where
  id : String
  name : String
  category : String
  status : String
  hygiene_score : Int
  last_cleaned : ℚ
  last_updated : ℚ
  occupancy : String
  water_available : Bool
  soap_available : Bool
  paper_available : Bool
  cleaner_assigned : Option String
  icon : Option String
deriving DecidableEq, Repr

/-- One entry of a `real_time_updates` / `staff_updates` ledger list.
Field `type` is the source dict key `'type'`; the fresh uuid `'id'` and the
`'cleaner_email'` key (never read back) are omitted. -/
structure Update where
  toilet_id : String
  toilet_name : String
  type : String
  previous_status : String
  new_status : String
  new_score : Int
  cleaner_name : Option String
  timestamp : ℚ
  icon : Option String
deriving DecidableEq, Repr

/-- Explicit oracle for the random draws one simulator tick may consume.
Each `random.randint` call site gets its own field; `Valid` constrains each
to its call site's range. -/
structure TickDraws where
  transRoll : ℚ
  branchRoll : ℚ
  dropCM : Int
  incMC : Int
  dropMD : Int
  incDM : Int
  incDC : Int
  soapRoll : ℚ
  paperRoll : ℚ
  waterRoll : ℚ
deriving DecidableEq, Repr

/-- The `randint` bounds of the five score-delta draw sites of
`simulate_real_time_updates`. -/
def TickDraws.Valid (d : TickDraws) : Prop :=
  8 ≤ d.dropCM ∧ d.dropCM ≤ 20 ∧
  25 ≤ d.incMC ∧ d.incMC ≤ 45 ∧
  15 ≤ d.dropMD ∧ d.dropMD ≤ 35 ∧
  15 ≤ d.incDM ∧ d.incDM ≤ 30 ∧
  30 ≤ d.incDC ∧ d.incDC ≤ 50

instance (d : TickDraws) : Decidable d.Valid := by
  unfold TickDraws.Valid; infer_instance

/-- `Except` success test. -/
def isOk : Except ε α → Bool
  | .ok _ => true
  | .error _ => false

/-- Python's `l[-n:]` on a list. -/
def lastN (n : Nat) (l : List α) : List α := l.drop (l.length - n)

namespace EnhancedApp

/-- The category degradation-rate table of `simulate_real_time_updates`
(dict `.get(toilet['type'], 0.15)`). -/
def degradation_rate (category : String) : ℚ :=
  if category = "gas_station" then 1/4
  else if category = "university" then 1/5
  else if category = "metro" then 9/50
  else if category = "mall" then 3/20
  else if category = "public" then 3/25
  else if category = "hospital" then 2/25
  else 3/20

/-- The occupancy multiplier table of `simulate_real_time_updates`
(dict `.get(toilet['occupancy'], 1.0)`). -/
def occupancy_multiplier (occupancy : String) : ℚ :=
  if occupancy = "high" then 3/2
  else if occupancy = "medium" then 1
  else if occupancy = "low" then 7/10
  else 1

/-- One iteration of the while-loop body of `simulate_real_time_updates`,
acting on the selected toilet, with the random draws passed through `d`.
Returns the mutated toilet and the appended ledger entry, if any.
`int(...)` on the nonnegative float products is embedded as `Int.floor`. -/
def simulate_real_time_updates_tick (now : ℚ) (t : Toilet) (d : TickDraws) :
    Toilet × Option Update :=
  let mult := occupancy_multiplier t.occupancy
  let effective_degradation := degradation_rate t.category * mult
  if t.status = "Clean" then
    if d.transRoll < effective_degradation then
      let score_drop := ⌊(d.dropCM : ℚ) * mult⌋
      let t' := { t with
        hygiene_score := max 50 (t.hygiene_score - score_drop),
        status := "Moderate",
        last_updated := now,
        soap_available := if d.soapRoll < 3/10 then false else t.soap_available,
        paper_available := if d.paperRoll < 1/5 then false else t.paper_available }
      (t', some { toilet_id := t.id, toilet_name := t.name, type := "status_change",
                  previous_status := "Clean", new_status := "Moderate",
                  new_score := t'.hygiene_score, cleaner_name := none,
                  timestamp := now, icon := t.icon })
    else (t, none)
  else if t.status = "Moderate" then
    if d.transRoll < effective_degradation * (6/5) then
      if d.branchRoll < 2/5 then
        let t' := { t with
          hygiene_score := min 95 (t.hygiene_score + d.incMC),
          status := "Clean",
          last_cleaned := now,
          last_updated := now,
          water_available := true, soap_available := true, paper_available := true }
        (t', some { toilet_id := t.id, toilet_name := t.name, type := "cleaned",
                    previous_status := "Moderate", new_status := "Clean",
                    new_score := t'.hygiene_score, cleaner_name := none,
                    timestamp := now, icon := t.icon })
      else
        let score_drop := ⌊(d.dropMD : ℚ) * mult⌋
        let t' := { t with
          hygiene_score := max 10 (t.hygiene_score - score_drop),
          status := "Dirty",
          last_updated := now,
          water_available := if d.waterRoll < 1/2 then false else t.water_available,
          soap_available := false,
          paper_available := if d.paperRoll < 2/5 then false else t.paper_available }
        (t', some { toilet_id := t.id, toilet_name := t.name, type := "status_change",
                    previous_status := "Moderate", new_status := "Dirty",
                    new_score := t'.hygiene_score, cleaner_name := none,
                    timestamp := now, icon := t.icon })
    else (t, none)
  else if t.status = "Dirty" then
    if d.transRoll < 2/25 then
      if d.branchRoll < 7/10 then
        let t' := { t with
          hygiene_score := min 60 (t.hygiene_score + d.incDM),
          status := "Moderate",
          last_updated := now,
          water_available := true,
          soap_available := if d.soapRoll < 3/5 then true else t.soap_available }
        (t', some { toilet_id := t.id, toilet_name := t.name, type := "status_change",
                    previous_status := "Dirty", new_status := "Moderate",
                    new_score := t'.hygiene_score, cleaner_name := none,
                    timestamp := now, icon := t.icon })
      else
        let t' := { t with
          hygiene_score := min 90 (t.hygiene_score + d.incDC),
          status := "Clean",
          last_cleaned := now,
          last_updated := now,
          water_available := true, soap_available := true, paper_available := true }
        (t', some { toilet_id := t.id, toilet_name := t.name, type := "cleaned",
                    previous_status := "Dirty", new_status := "Clean",
                    new_score := t'.hygiene_score, cleaner_name := none,
                    timestamp := now, icon := t.icon })
    else (t, none)
  else (t, none)

/-- The helper `calculate_priority(toilet)` of the enhanced app
(`datetime.now()` is passed in as `now`). -/
def calculate_priority (now : ℚ) (t : Toilet) : String :=
  let time_since_cleaned := (now - t.last_cleaned) / 3600
  if t.hygiene_score < 30 ∨ time_since_cleaned > 8 then "high"
  else if t.hygiene_score < 60 ∨ time_since_cleaned > 4 then "medium"
  else "low"

end EnhancedApp

/-- One element of the task list built by the enhanced app's
`get_staff_tasks`.  Constant display fields (`scheduled_time`,
`estimated_duration`, `toilet_address`) are omitted. -/
structure Task where
  id : String
  toilet_id : String
  toilet_name : String
  priority : String
  status : String
deriving DecidableEq, Repr

/-- The status-rank dict of the sort key of `get_staff_tasks`
(`{'in_progress': 0, 'pending': 1, 'completed': 2}`; any other string
would raise `KeyError` and is mapped to a junk value - generated tasks
only carry the three listed statuses). -/
def statusRank : String → Int
  | "in_progress" => 0
  | "pending" => 1
  | "completed" => 2
  | _ => 3

/-- The priority-rank dict of the sort key of `get_staff_tasks`
(`{'high': 3, 'medium': 2, 'low': 1}`). -/
def priorityRank : String → Int
  | "high" => 3
  | "medium" => 2
  | "low" => 1
  | _ => 0

/-- The comparison actually used by the enhanced app's `get_staff_tasks`:
lexicographic on `(statusRank, priorityRank)`, both ascending. -/
def taskLE (a b : Task) : Prop :=
  statusRank a.status < statusRank b.status ∨
    (statusRank a.status = statusRank b.status ∧
      priorityRank a.priority ≤ priorityRank b.priority)

instance : DecidableRel taskLE := fun a b => by
  unfold taskLE; infer_instance

instance : IsTotal Task taskLE :=
  ⟨fun a b => by unfold taskLE; omega⟩

instance : IsTrans Task taskLE :=
  ⟨fun a b c hab hbc => by unfold taskLE at *; omega⟩

/-- The comparison the specification claims for `get_staff_tasks`:
lexicographic on `(statusRank, -priorityRank, facilityId)`. -/
def claimedTaskLE (a b : Task) : Prop :=
  statusRank a.status < statusRank b.status ∨
    (statusRank a.status = statusRank b.status ∧
      (-priorityRank a.priority < -priorityRank b.priority ∨
        (-priorityRank a.priority = -priorityRank b.priority ∧
          a.toilet_id ≤ b.toilet_id)))

instance : DecidableRel claimedTaskLE := fun a b => by
  unfold claimedTaskLE; infer_instance

namespace EnhancedApp

/-- The task built for one assigned toilet inside `get_staff_tasks`:
the dict literal with `'status': 'pending'` followed by the two
conditional overwrites. -/
def task_for (now : ℚ) (t : Toilet) : Task :=
  let priority := calculate_priority now t
  { id := "task_" ++ t.id,
    toilet_id := t.id,
    toilet_name := t.name,
    priority := priority,
    status :=
      if t.status = "Dirty" ∧ priority = "high" then "in_progress"
      else if t.status = "Clean" then "completed"
      else "pending" }

/-- `GET /api/staff/tasks` of the enhanced app: one task per toilet with
`cleaner_assigned == user_email`, then `tasks.sort(key=...)` - a stable
sort by `(statusRank, priorityRank)`, embedded as `List.insertionSort`
with relation `taskLE`. -/
def get_staff_tasks (now : ℚ) (user_email : String) (toilets : List Toilet) :
    List Task :=
  let tasks := (toilets.filter (fun t => t.cleaner_assigned = some user_email)).map
    (task_for now)
  List.insertionSort taskLE tasks

/-- `POST /api/toilets/<toilet_id>/update-status`, acting on the toilet the
route looks up (the 404 branch is the lookup and is factored out).
The Python `hygiene_score or toilet['hygiene_score']` keeps the old score
both when the key is absent and when the provided value is `0` (falsy). -/
def update_toilet_status (now : ℚ) (user_role user_email : String)
    (new_status : Option String) (hygiene_score : Option Int) (t : Toilet) :
    Except Nat (Toilet × Update) :=
  if user_role ≠ "cleaner" ∧ user_role ≠ "admin" then .error 403
  else
    match new_status with
    | none => .error 400
    | some s =>
      if s ≠ "Clean" ∧ s ≠ "Moderate" ∧ s ≠ "Dirty" then .error 400
      else
        let previous_status := t.status
        let new_score :=
          match hygiene_score with
          | some v => if v = 0 then t.hygiene_score else v
          | none => t.hygiene_score
        let t' := { t with
          status := s,
          hygiene_score := new_score,
          last_cleaned := now,
          last_updated := now,
          cleaner_assigned := some user_email }
        .ok (t', { toilet_id := t.id, toilet_name := t.name, type := "cleaned",
                   previous_status := previous_status, new_status := s,
                   new_score := new_score, cleaner_name := some user_email,
                   timestamp := now, icon := none })

/-- Result of a successful `POST /api/staff/start-cleaning` call on the
enhanced app.  `completions_spawned` counts the
`threading.Thread(target=complete_cleaning)` `.start()` calls the handler
makes: the source contains the thread-creation block twice (lines
1161-1168), so two completion threads are spawned per call. -/
structure StartCleanResult where
  toilet : Toilet
  event : Update
  completion_delay_seconds : ℚ
  completions_spawned : Nat
deriving DecidableEq, Repr

/-- `POST /api/staff/start-cleaning` of the enhanced app, acting on the
toilet the route looks up.  Note the source mutates `toilet['status']`
first and only then builds the update dict reading
`'previous_status': toilet['status']` - mirrored by `t1.status` below. -/
def start_cleaning (now : ℚ) (user_role user_email user_name : String)
    (t : Toilet) : Except Nat StartCleanResult :=
  if user_role ≠ "cleaner" then .error 403
  else if t.cleaner_assigned ≠ some user_email then .error 403
  else
    let t1 := { t with status := "In Progress", hygiene_score := 50,
                       last_updated := now }
    let update : Update :=
      { toilet_id := t.id, toilet_name := t.name, type := "cleaning_started",
        previous_status := t1.status, new_status := "In Progress",
        new_score := 50, cleaner_name := some user_name,
        timestamp := now, icon := none }
    .ok { toilet := t1, event := update,
          completion_delay_seconds := 30, completions_spawned := 2 }

/-- The delayed `complete_cleaning` closure spawned by `start_cleaning`;
`score` is the `random.randint(80, 95)` draw. -/
def complete_cleaning (now : ℚ) (user_name : String) (t : Toilet)
    (score : Int) : Toilet × Update :=
  let t' := { t with status := "Clean", hygiene_score := score,
                     last_cleaned := now, last_updated := now }
  (t', { toilet_id := t.id, toilet_name := t.name, type := "cleaned",
         previous_status := "In Progress", new_status := "Clean",
         new_score := score, cleaner_name := some user_name,
         timestamp := now, icon := some (t.icon.getD "🚻") })

/-- `GET /api/updates` of the enhanced app: the last 15 ledger entries,
with the icon default filled in; no age filter of any kind is applied. -/
def get_real_time_updates (real_time_updates : List Update) : List Update :=
  (lastN 15 real_time_updates).map
    (fun u => { u with icon := some (u.icon.getD "🚻") })

end EnhancedApp

namespace StaffApp

/-- The helper `calculate_urgency_score(toilet)` of the staff app
(`datetime.now()` passed in as `now`; `time_since_cleaned` is in hours). -/
def calculate_urgency_score (now : ℚ) (t : Toilet) : Int :=
  let status_points : Int :=
    if t.status = "Dirty" then 50
    else if t.status = "Needs Cleaning" then 30
    else if t.status = "Moderate" then 10
    else 0
  let hygiene_points : Int :=
    if t.hygiene_score < 50 then 30
    else if t.hygiene_score < 70 then 20
    else 0
  let time_since_cleaned := (now - t.last_cleaned) / 3600
  let time_points : Int :=
    if time_since_cleaned > 8 then 20
    else if time_since_cleaned > 4 then 10
    else 0
  min (status_points + hygiene_points + time_points) 100

/-- The helper `get_priority_level(urgency_score)` of the staff app. -/
def get_priority_level (urgency_score : Int) : String :=
  if urgency_score ≥ 70 then "high"
  else if urgency_score ≥ 40 then "medium"
  else "low"

/-- `POST /api/staff/start-cleaning` of the staff app, acting on the toilet
the route looks up (404 factored out).  There is no check of the current
status: any assigned toilet is moved to `'Cleaning in Progress'`. -/
def start_cleaning (now : ℚ) (user_email user_name : String) (t : Toilet) :
    Except Nat (Toilet × Update) :=
  if t.cleaner_assigned ≠ some user_email then .error 403
  else
    let previous_status := t.status
    let t' := { t with status := "Cleaning in Progress" }
    .ok (t', { toilet_id := t.id, toilet_name := t.name,
               type := "cleaning_started",
               previous_status := previous_status,
               new_status := "Cleaning in Progress",
               new_score := t.hygiene_score,
               cleaner_name := some user_name,
               timestamp := now, icon := some (t.icon.getD "🚻") })

/-- `POST /api/staff/complete-cleaning` of the staff app; `score` is the
`random.randint(85, 100)` draw. -/
def complete_cleaning (now : ℚ) (user_email user_name : String) (t : Toilet)
    (score : Int) : Except Nat (Toilet × Update) :=
  if t.cleaner_assigned ≠ some user_email then .error 403
  else
    let previous_status := t.status
    let t' := { t with status := "Clean", hygiene_score := score,
                       last_cleaned := now }
    .ok (t', { toilet_id := t.id, toilet_name := t.name,
               type := "cleaning_completed",
               previous_status := previous_status, new_status := "Clean",
               new_score := score, cleaner_name := some user_name,
               timestamp := now, icon := some (t.icon.getD "🚻") })

/-- `GET /api/staff/updates` of the staff app: the last 20 ledger entries,
filtered to those at most 30 minutes old (the re-keyed view dict copies
the entry's fields, so the entry itself is returned here; the derived
`time_ago` label is a display annotation and is not modelled). -/
def get_staff_updates (now : ℚ) (staff_updates : List Update) : List Update :=
  (lastN 20 staff_updates).filter
    (fun u => (now - u.timestamp) / 60 ≤ 30)

end StaffApp

/-- The JSON body of a `POST /api/webhook/update` request on the public
app; `none` = key absent.  `timestamp` is `some` when the key is present
as a parseable ISO string. -/
structure WebhookPayload where
  toilet_id : Option String
  toilet_name : Option String
  type : Option String
  previous_status : Option String
  new_status : Option String
  new_score : Option Int
  cleaner_name : Option String
  timestamp : Option ℚ
  icon : Option String
deriving DecidableEq, Repr

namespace PublicApp

/-- The `all(field in data for field in required_fields)` check of
`receive_update`: the six required keys.  `new_score` is not in the
source's `required_fields` list. -/
def required_fields_present (p : WebhookPayload) : Bool :=
  p.toilet_id.isSome && p.toilet_name.isSome && p.type.isSome &&
  p.previous_status.isSome && p.new_status.isSome && p.timestamp.isSome

/-- `POST /api/webhook/update` of the public app: returns the new ledger
and the HTTP outcome (`Except.error 400` on a missing required field,
success message otherwise).  Defaults mirror the source's `.get` calls:
score 0, cleaner `'Unknown'`, icon `'🚻'`, timestamp `datetime.now()`. -/
def receive_update (now : ℚ) (p : WebhookPayload)
    (real_time_updates : List Update) : List Update × Except Nat String :=
  if ¬ required_fields_present p then (real_time_updates, .error 400)
  else
    let update : Update :=
      { toilet_id := p.toilet_id.getD "",
        toilet_name := p.toilet_name.getD "",
        type := p.type.getD "",
        previous_status := p.previous_status.getD "",
        new_status := p.new_status.getD "",
        new_score := p.new_score.getD 0,
        cleaner_name := some (p.cleaner_name.getD "Unknown"),
        timestamp := p.timestamp.getD now,
        icon := some (p.icon.getD "🚻") }
    (real_time_updates ++ [update], .ok "Update received successfully")

end PublicApp

/-! Concrete fixtures (mirroring the first `toilets_data` entry) used as
test inputs of the theorems below. -/

/-- A registry entry shaped like `toilet_001` of `toilets_data`, with
`datetime` fields placed at the time origin. -/
def toilet_001 : Toilet :=
  { id := "toilet_001", name := "Central Park Public Toilet",
    category := "public", status := "Clean", hygiene_score := 85,
    last_cleaned := 0, last_updated := 0, occupancy := "low",
    water_available := true, soap_available := true, paper_available := true,
    cleaner_assigned := some "cleaner@example.com", icon := some "🚻" }

/-- A draw oracle with every `randint` draw at the low end of its range and
every probability roll at 0. -/
def valid_draws : TickDraws :=
  { transRoll := 0, branchRoll := 0, dropCM := 8, incMC := 25, dropMD := 15,
    incDM := 15, incDC := 30, soapRoll := 0, paperRoll := 0, waterRoll := 0 }

/-- The result of a first staff-app start-cleaning call on an assigned
dirty facility. -/
def c2_first_call : Except Nat (Toilet × Update) :=
  StaffApp.start_cleaning 0 "cleaner@example.com" "Cleaning Staff"
    { toilet_001 with status := "Dirty", hygiene_score := 25 }

/-- A webhook payload carrying all fields except `new_score`. -/
def payload_no_score : WebhookPayload :=
  { toilet_id := some "toilet_001", toilet_name := some "Central Park Public Toilet",
    type := some "cleaning_started", previous_status := some "Dirty",
    new_status := some "Cleaning in Progress", new_score := none,
    cleaner_name := some "Cleaning Staff", timestamp := some 0, icon := none }

/-- A webhook payload with every key absent. -/
def payload_empty : WebhookPayload :=
  { toilet_id := none, toilet_name := none, type := none,
    previous_status := none, new_status := none, new_score := none,
    cleaner_name := none, timestamp := none, icon := none }

/-- A ledger entry stamped at the time origin. -/
def update_at_origin : Update :=
  { toilet_id := "toilet_001", toilet_name := "Central Park Public Toilet",
    type := "cleaned", previous_status := "Dirty", new_status := "Clean",
    new_score := 90, cleaner_name := some "Cleaning Staff",
    timestamp := 0, icon := some "🚻" }

/-- Assigned facility `toilet_a`: Moderate, score 25 (priority high). -/
def c5A : Toilet :=
  { toilet_001 with id := "toilet_a", status := "Moderate", hygiene_score := 25 }

/-- Assigned facility `toilet_b`: Moderate, score 80 (priority low). -/
def c5B : Toilet :=
  { toilet_001 with id := "toilet_b", status := "Moderate", hygiene_score := 80 }

/-- The facility of the spec's §8 scenario: `F1`, category mall, high
occupancy, Clean, score 85. -/
def f1_mall : Toilet :=
  { toilet_001 with
    id := "F1", category := "mall", occupancy := "high",
    status := "Clean", hygiene_score := 85 }

/-- Draws for the Clean-to-Moderate scenario: the transition roll is 0 (the
branch fires) and the `randint(8,20)` draw is `n`. -/
def c6_draws (n : Int) : TickDraws := { valid_draws with dropCM := n }

/-! Theorems. -/

/-- C2 counterexample: calling start-cleaning twice in succession on the
same assigned facility, the second call is NOT rejected with a conflict
error - the staff app has no check of the current status, so the second
call succeeds as well. -/
theorem c2_counterexample :
    (match c2_first_call with
     | .ok (t1, _) =>
        isOk (StaffApp.start_cleaning 0 "cleaner@example.com" "Cleaning Staff" t1)
     | .error _ => false) = true := rfl

/-- C2 (amended): a start-cleaning request on a facility already in the
`Cleaning in Progress` status is not rejected: if the facility is assigned
to the caller the call succeeds, and the facility record (status and
score) is returned unchanged. -/
theorem c2_amended (now : ℚ) (u n : String) (t : Toilet)
    (hassign : t.cleaner_assigned = some u)
    (hstat : t.status = "Cleaning in Progress") :
    (StaffApp.start_cleaning now u n t).map Prod.fst = .ok t := by
  obtain ⟨i, nm, cat, st, sc, lc, lu, oc, w, s, p, ca, ic⟩ := t
  simp only at hstat hassign
  subst hstat
  simp [StaffApp.start_cleaning, hassign, Except.map]

/-- C2 witness: the amended statement at a concrete in-progress facility. -/
theorem c2_witness :
    (StaffApp.start_cleaning 0 "cleaner@example.com" "Cleaning Staff"
        { toilet_001 with status := "Cleaning in Progress" }).map Prod.fst
      = .ok { toilet_001 with status := "Cleaning in Progress" } :=
  c2_amended 0 "cleaner@example.com" "Cleaning Staff"
    { toilet_001 with status := "Cleaning in Progress" } rfl rfl

/-- C4: the enhanced app's start-cleaning handler contains the
thread-spawning block twice, so one successful call schedules TWO delayed
completions, contradicting the one-pending-completion requirement. -/
theorem c4_two_completions_spawned :
    (match EnhancedApp.start_cleaning 0 "cleaner" "cleaner@example.com"
        "Cleaning Staff" toilet_001 with
     | .ok r => r.completions_spawned
     | .error _ => 0) = 2 := rfl

/-- C9 counterexample: a payload missing `new_score` is accepted by the
webhook (the source's `required_fields` list does not contain it), so the
claimed 7-field requirement is false. -/
theorem c9_counterexample :
    isOk (PublicApp.receive_update 0 payload_no_score []).2 = true := rfl

/-- C9 (amended): the webhook accepts a payload iff the six fields
`toilet_id, toilet_name, type, previous_status, new_status, timestamp` are
present; `new_score` is optional (defaulting to 0); when a required field
is missing the request is rejected with 400 and the ledger is unchanged. -/
theorem c9_amended (now : ℚ) (p : WebhookPayload) (l : List Update) :
    (isOk (PublicApp.receive_update now p l).2 = PublicApp.required_fields_present p)
    ∧ (PublicApp.required_fields_present p = false →
        PublicApp.receive_update now p l = (l, .error 400)) := by
  cases hp : PublicApp.required_fields_present p <;>
    simp [PublicApp.receive_update, hp, isOk]

/-- C9 witness: the empty payload is rejected with 400 and the ledger is
left unchanged. -/
theorem c9_witness :
    PublicApp.receive_update 0 payload_empty [] = ([], .error 400) :=
  (c9_amended 0 payload_empty []).2 rfl

/-- C10: every successful enhanced-app start-cleaning call emits a
`cleaning_started` event whose `previous_status` is `'In Progress'` - the
status the facility was just set to - because the handler mutates
`toilet['status']` before building the event dict; the actual prior status
is never recorded. -/
theorem c10_previous_status_is_in_progress (now : ℚ) (role u n : String)
    (t : Toilet) (r : EnhancedApp.StartCleanResult)
    (hok : EnhancedApp.start_cleaning now role u n t = .ok r) :
    r.event.previous_status = "In Progress" := by
  unfold EnhancedApp.start_cleaning at hok
  split_ifs at hok
  all_goals
    first
      | exact (Except.noConfusion hok)
      | (injection hok with h; exact h ▸ rfl)

/-- C10 witness: starting cleaning on a Dirty facility records previous
status `'In Progress'`, not `'Dirty'`. -/
theorem c10_witness :
    (match EnhancedApp.start_cleaning 0 "cleaner" "cleaner@example.com"
        "Cleaning Staff" { toilet_001 with status := "Dirty" } with
     | .ok r => r.event.previous_status = "In Progress"
     | .error _ => False) :=
  c10_previous_status_is_in_progress 0 "cleaner" "cleaner@example.com"
    "Cleaning Staff" { toilet_001 with status := "Dirty" } _ rfl

/-- C5 counterexample: with two assigned pending-status facilities of
priorities high and low, the returned task list is NOT sorted by the
claimed key `(statusRank, -priorityRank, facilityId)`: the code sorts by
`(statusRank, priorityRank)` ascending, placing the low-priority task
first. -/
theorem c5_counterexample :
    ¬ List.Sorted claimedTaskLE
        (EnhancedApp.get_staff_tasks 0 "cleaner@example.com" [c5A, c5B]) := by
  have hlist : EnhancedApp.get_staff_tasks 0 "cleaner@example.com" [c5A, c5B]
      = [EnhancedApp.task_for 0 c5B, EnhancedApp.task_for 0 c5A] := by
    norm_num [EnhancedApp.get_staff_tasks, List.insertionSort, List.orderedInsert,
      taskLE, EnhancedApp.task_for, EnhancedApp.calculate_priority, c5A, c5B,
      toilet_001, statusRank, priorityRank, String.reduceEq]
    all_goals decide
  rw [hlist]
  norm_num [List.Sorted, List.pairwise_cons, claimedTaskLE, EnhancedApp.task_for,
    EnhancedApp.calculate_priority, c5A, c5B, toilet_001, statusRank, priorityRank,
    String.reduceEq]
  all_goals decide

/-- C5 (amended): `get_staff_tasks` returns one task per facility assigned
to the staff member (with the status rule of `task_for`), and the list is
sorted by the key `(statusRank, priorityRank)` - within a status group the
LOWER-priority tasks come first, and there is no facility-id key. -/
theorem c5_amended (now : ℚ) (user_email : String) (toilets : List Toilet) :
    List.Perm (EnhancedApp.get_staff_tasks now user_email toilets)
        ((toilets.filter (fun t => t.cleaner_assigned = some user_email)).map
          (EnhancedApp.task_for now))
    ∧ List.Sorted taskLE (EnhancedApp.get_staff_tasks now user_email toilets) := by
  unfold EnhancedApp.get_staff_tasks
  exact ⟨List.perm_insertionSort taskLE _, List.sorted_insertionSort taskLE _⟩

/-- C6 counterexample: in the §8 scenario (mall, high occupancy, Clean,
score 85), the Clean-to-Moderate branch with `randint` draw 20 drops the
score by `int(20 × 1.5) = 30` to 55, outside the claimed `[65,77]`. -/
theorem c6_counterexample :
    (EnhancedApp.simulate_real_time_updates_tick 0 f1_mall (c6_draws 20)).1.hygiene_score = 55
    ∧ ¬ (65 ≤ (EnhancedApp.simulate_real_time_updates_tick 0 f1_mall
          (c6_draws 20)).1.hygiene_score) := by
  simp only [EnhancedApp.simulate_real_time_updates_tick, f1_mall, toilet_001,
    c6_draws, valid_draws, EnhancedApp.degradation_rate,
    EnhancedApp.occupancy_multiplier, String.reduceEq]
  norm_num [max_def]

/-- C6 (amended): in the §8 scenario, whenever the Clean-to-Moderate
branch fires the resulting status is Moderate and the resulting score lies
in `[55,73]` (85 − int(20×1.5) up to 85 − int(8×1.5)); the occupancy
multiplier 1.5 is applied to the drawn drop before subtraction. -/
theorem c6_amended (now : ℚ) (d : TickDraws)
    (h8 : 8 ≤ d.dropCM) (h20 : d.dropCM ≤ 20)
    (hfire : d.transRoll < 9/40) :
    (EnhancedApp.simulate_real_time_updates_tick now f1_mall d).1.status = "Moderate"
    ∧ 55 ≤ (EnhancedApp.simulate_real_time_updates_tick now f1_mall d).1.hygiene_score
    ∧ (EnhancedApp.simulate_real_time_updates_tick now f1_mall d).1.hygiene_score ≤ 73 := by
  have hlo : (12 : Int) ≤ ⌊(d.dropCM : ℚ) * (3/2)⌋ := by
    have h1 : ((8 : ℚ)) * (3/2) ≤ (d.dropCM : ℚ) * (3/2) := by
      have : (8 : ℚ) ≤ (d.dropCM : ℚ) := by exact_mod_cast h8
      linarith
    have h2 := Int.floor_le_floor h1
    norm_num at h2
    exact_mod_cast h2
  have hhi : ⌊(d.dropCM : ℚ) * (3/2)⌋ ≤ 30 := by
    have h1 : (d.dropCM : ℚ) * (3/2) ≤ ((20 : ℚ)) * (3/2) := by
      have : (d.dropCM : ℚ) ≤ (20 : ℚ) := by exact_mod_cast h20
      linarith
    have h2 := Int.floor_le_floor h1
    norm_num at h2
    exact_mod_cast h2
  have hcat : f1_mall.category = "mall" := rfl
  have hocc : f1_mall.occupancy = "high" := rfl
  have hstat : f1_mall.status = "Clean" := rfl
  have hscore : f1_mall.hygiene_score = 85 := rfl
  have hm : EnhancedApp.occupancy_multiplier "high" = 3/2 := by
    norm_num [EnhancedApp.occupancy_multiplier]
  have heff : EnhancedApp.degradation_rate "mall" * ((3:ℚ)/2) = 9/40 := by
    simp only [EnhancedApp.degradation_rate, String.reduceEq, reduceIte]
    norm_num
  simp only [EnhancedApp.simulate_real_time_updates_tick, hcat, hocc, hstat,
    hscore, hm, heff, String.reduceEq, reduceIte]
  rw [if_pos hfire]
  refine ⟨rfl, ?_, ?_⟩ <;>
    · dsimp only
      rw [max_def]
      split_ifs <;> omega

/-- C6 witness: the amended statement at draw 8 (score 73). -/
theorem c6_witness :
    (EnhancedApp.simulate_real_time_updates_tick 0 f1_mall (c6_draws 8)).1.status = "Moderate"
    ∧ 55 ≤ (EnhancedApp.simulate_real_time_updates_tick 0 f1_mall (c6_draws 8)).1.hygiene_score
    ∧ (EnhancedApp.simulate_real_time_updates_tick 0 f1_mall (c6_draws 8)).1.hygiene_score ≤ 73 :=
  c6_amended 0 (c6_draws 8) (by decide) (by decide) (by norm_num [c6_draws, valid_draws])

/-- The hygiene-score point contribution of `calculate_urgency_score` never
increases when the score increases. -/
theorem hygiene_points_antitone {a b : Int} (h : b ≤ a) :
    (if a < 50 then (30 : Int) else if a < 70 then 20 else 0)
      ≤ (if b < 50 then (30 : Int) else if b < 70 then 20 else 0) := by
  split_ifs <;> omega

/-- The time-since-cleaned point contribution of `calculate_urgency_score`
never decreases when the elapsed time increases. -/
theorem time_points_monotone {a b : ℚ} (h : a ≤ b) :
    (if a > 8 then (20 : Int) else if a > 4 then 10 else 0)
      ≤ (if b > 8 then (20 : Int) else if b > 4 then 10 else 0) := by
  split_ifs <;> first | omega | (exfalso; linarith)

/-- C7: the staff app's urgency score is a pure function of the facility
record and the clock; holding everything else fixed, a facility with a
lower hygiene score or an earlier last-cleaned time (greater
hours-since-cleaned) scores at least as high, and every returned score
lies in `[0, 100]`. -/
theorem c7_urgency_monotone_and_bounded (now : ℚ) (t1 t2 : Toilet)
    (hstatus : t2.status = t1.status)
    (hhyg : t2.hygiene_score ≤ t1.hygiene_score)
    (hclean : t2.last_cleaned ≤ t1.last_cleaned) :
    StaffApp.calculate_urgency_score now t1 ≤ StaffApp.calculate_urgency_score now t2
    ∧ 0 ≤ StaffApp.calculate_urgency_score now t1
    ∧ StaffApp.calculate_urgency_score now t1 ≤ 100 := by
  unfold StaffApp.calculate_urgency_score
  rw [hstatus]
  have hdiv : (now - t1.last_cleaned) / 3600 ≤ (now - t2.last_cleaned) / 3600 := by
    apply div_le_div_of_nonneg_right ?_ (by norm_num)
    linarith
  refine ⟨?_, ?_, min_le_right _ _⟩
  · refine min_le_min ?_ le_rfl
    exact add_le_add (add_le_add le_rfl (hygiene_points_antitone hhyg))
      (time_points_monotone hdiv)
  · refine le_min ?_ (by norm_num)
    split_ifs <;> omega

/-- C7 witness: a facility with score 40 cleaned 10 hours ago scores at
least as high as one with score 85 cleaned just now, and the latter's
score is within `[0, 100]`. -/
theorem c7_witness :
    StaffApp.calculate_urgency_score 0 toilet_001
        ≤ StaffApp.calculate_urgency_score 0
            { toilet_001 with hygiene_score := 40, last_cleaned := -36000 }
    ∧ 0 ≤ StaffApp.calculate_urgency_score 0 toilet_001
    ∧ StaffApp.calculate_urgency_score 0 toilet_001 ≤ 100 :=
  c7_urgency_monotone_and_bounded 0 toilet_001
    { toilet_001 with hygiene_score := 40, last_cleaned := -36000 }
    rfl (by norm_num [toilet_001]) (by norm_num [toilet_001])

/-- C8 counterexample: the enhanced app's `GET /api/updates` applies no
window filter at all - with the clock at 6000 s it returns an entry that
is 100 minutes old, far outside a 30-minute window. -/
theorem c8_counterexample :
    EnhancedApp.get_real_time_updates [update_at_origin] = [update_at_origin]
    ∧ ¬ ((6000 : ℚ) - update_at_origin.timestamp ≤ 30 * 60) := by
  constructor
  · rfl
  · norm_num [update_at_origin]

/-- C8 (amended): the staff app's updates query returns at most 20 entries
and never an entry older than its fixed 30-minute window; the enhanced
app's query instead returns the last 15 entries with no age filtering. -/
theorem c8_amended (now : ℚ) (staff_updates : List Update) :
    (StaffApp.get_staff_updates now staff_updates).length ≤ 20
    ∧ ∀ u ∈ StaffApp.get_staff_updates now staff_updates,
        now - u.timestamp ≤ 30 * 60 := by
  constructor
  · refine le_trans (List.length_filter_le _ _) ?_
    simp only [lastN, List.length_drop]
    omega
  · intro u hu
    unfold StaffApp.get_staff_updates at hu
    have h := of_decide_eq_true (List.mem_filter.mp hu).2
    have h60 : (0 : ℚ) < 60 := by norm_num
    calc now - u.timestamp = ((now - u.timestamp) / 60) * 60 := by field_simp
    _ ≤ 30 * 60 := by
        apply mul_le_mul_of_nonneg_right h (by norm_num)

/-- C8 witness: on a one-entry ledger stamped now, the staff query returns
at most 20 entries and the returned entry is within the window. -/
theorem c8_witness :
    (StaffApp.get_staff_updates 0 [update_at_origin]).length ≤ 20
    ∧ (0 : ℚ) - update_at_origin.timestamp ≤ 30 * 60 :=
  ⟨(c8_amended 0 [update_at_origin]).1,
   (c8_amended 0 [update_at_origin]).2 update_at_origin (by
      norm_num [StaffApp.get_staff_updates, lastN, update_at_origin])⟩

/-- C1 counterexample: the direct status-update endpoint performs no
validation of the provided score - posting `hygiene_score = 150` on a
valid facility stores 150, outside `[0,100]`. -/
theorem c1_counterexample :
    (match EnhancedApp.update_toilet_status 0 "cleaner" "cleaner@example.com"
        (some "Clean") (some 150) toilet_001 with
     | .ok (t', _) => t'.hygiene_score
     | .error _ => 0) = 150 ∧ ¬ ((150 : Int) ≤ 100) :=
  ⟨rfl, by norm_num⟩

/-- C1 (amended): starting from a score in `[0,100]`, a simulator tick,
a successful start-cleaning, and the scheduled completion all leave the
score in `[0,100]`; the direct status-update keeps the invariant only when
the score supplied with the request (when present) is itself in `[0,100]`
- the endpoint stores any integer unvalidated. -/
theorem c1_amended :
    (∀ (now : ℚ) (t : Toilet) (d : TickDraws), d.Valid →
        0 ≤ t.hygiene_score → t.hygiene_score ≤ 100 →
        0 ≤ (EnhancedApp.simulate_real_time_updates_tick now t d).1.hygiene_score
        ∧ (EnhancedApp.simulate_real_time_updates_tick now t d).1.hygiene_score ≤ 100)
    ∧ (∀ (now : ℚ) (role u n : String) (t : Toilet)
        (r : EnhancedApp.StartCleanResult),
        EnhancedApp.start_cleaning now role u n t = .ok r →
        0 ≤ r.toilet.hygiene_score ∧ r.toilet.hygiene_score ≤ 100)
    ∧ (∀ (now : ℚ) (n : String) (t : Toilet) (score : Int),
        80 ≤ score → score ≤ 95 →
        0 ≤ (EnhancedApp.complete_cleaning now n t score).1.hygiene_score
        ∧ (EnhancedApp.complete_cleaning now n t score).1.hygiene_score ≤ 100)
    ∧ (∀ (now : ℚ) (role u : String) (s : Option String) (h : Option Int)
        (t t' : Toilet) (e : Update),
        (∀ v, h = some v → 0 ≤ v ∧ v ≤ 100) →
        0 ≤ t.hygiene_score → t.hygiene_score ≤ 100 →
        EnhancedApp.update_toilet_status now role u s h t = .ok (t', e) →
        0 ≤ t'.hygiene_score ∧ t'.hygiene_score ≤ 100) := by
  refine ⟨?_, ?_, ?_, ?_⟩
  · intro now t d hv h0 h1
    obtain ⟨hd1, hd2, hd3, hd4, hd5, hd6, hd7, hd8, hd9, hd10⟩ := hv
    have hmult : 0 ≤ EnhancedApp.occupancy_multiplier t.occupancy := by
      unfold EnhancedApp.occupancy_multiplier
      split_ifs <;> norm_num
    have hCM : 0 ≤ ⌊(d.dropCM : ℚ) * EnhancedApp.occupancy_multiplier t.occupancy⌋ := by
      refine Int.floor_nonneg.mpr (mul_nonneg ?_ hmult)
      exact_mod_cast (by omega : (0 : Int) ≤ d.dropCM)
    have hMD : 0 ≤ ⌊(d.dropMD : ℚ) * EnhancedApp.occupancy_multiplier t.occupancy⌋ := by
      refine Int.floor_nonneg.mpr (mul_nonneg ?_ hmult)
      exact_mod_cast (by omega : (0 : Int) ≤ d.dropMD)
    dsimp only [EnhancedApp.simulate_real_time_updates_tick]
    split_ifs <;>
      · dsimp only
        omega
  · intro now role u n t r hok
    unfold EnhancedApp.start_cleaning at hok
    split_ifs at hok
    all_goals
      first
        | exact (Except.noConfusion hok)
        | (injection hok with h
           subst h
           refine ⟨?_, ?_⟩ <;> norm_num)
  · intro now n t score hlo hhi
    dsimp only [EnhancedApp.complete_cleaning]
    omega
  · intro now role u s h t t' e hb h0 h1 hok
    unfold EnhancedApp.update_toilet_status at hok
    by_cases hr : role ≠ "cleaner" ∧ role ≠ "admin"
    · rw [if_pos hr] at hok
      exact Except.noConfusion hok
    · rw [if_neg hr] at hok
      cases s with
      | none => exact Except.noConfusion hok
      | some sv =>
        dsimp only at hok
        by_cases hs : sv ≠ "Clean" ∧ sv ≠ "Moderate" ∧ sv ≠ "Dirty"
        · rw [if_pos hs] at hok
          exact Except.noConfusion hok
        · rw [if_neg hs] at hok
          try dsimp only at hok
          injection hok with h2
          injection h2 with h3 h4
          subst h3
          dsimp only
          cases h with
          | none => exact ⟨h0, h1⟩
          | some v =>
            dsimp only
            by_cases hv : v = 0
            · subst hv
              simp only [reduceIte]
              exact ⟨h0, h1⟩
            · rw [if_neg hv]
              exact hb v rfl

/-- C1 witness: the amended statement instantiated at `toilet_001` (score
85) for the tick, the scheduled completion at draw 80, a successful
start-cleaning, and a direct update providing score 70. -/
theorem c1_witness :
    (0 ≤ (EnhancedApp.simulate_real_time_updates_tick 0 toilet_001 valid_draws).1.hygiene_score
      ∧ (EnhancedApp.simulate_real_time_updates_tick 0 toilet_001 valid_draws).1.hygiene_score ≤ 100)
    ∧ (0 ≤ (EnhancedApp.complete_cleaning 0 "Cleaning Staff" toilet_001 80).1.hygiene_score
      ∧ (EnhancedApp.complete_cleaning 0 "Cleaning Staff" toilet_001 80).1.hygiene_score ≤ 100)
    ∧ (match EnhancedApp.start_cleaning 0 "cleaner" "cleaner@example.com"
          "Cleaning Staff" toilet_001 with
       | .ok r => 0 ≤ r.toilet.hygiene_score ∧ r.toilet.hygiene_score ≤ 100
       | .error _ => False)
    ∧ (match EnhancedApp.update_toilet_status 0 "cleaner" "cleaner@example.com"
          (some "Clean") (some 70) toilet_001 with
       | .ok (t', _) => 0 ≤ t'.hygiene_score ∧ t'.hygiene_score ≤ 100
       | .error _ => False) := by
  refine ⟨?_, ?_, ?_, ?_⟩
  · exact c1_amended.1 0 toilet_001 valid_draws (by decide) (by decide) (by decide)
  · exact c1_amended.2.2.1 0 "Cleaning Staff" toilet_001 80 (by decide) (by decide)
  · exact c1_amended.2.1 0 "cleaner" "cleaner@example.com" "Cleaning Staff"
      toilet_001 _ rfl
  · exact c1_amended.2.2.2 0 "cleaner" "cleaner@example.com" (some "Clean")
      (some 70) toilet_001 _ _
      (by rintro v hv; injection hv with hv; subst hv; omega)
      (by decide) (by decide) rfl

/-- C3 counterexample: a direct status-update request on a facility whose
status is `Cleaning` is not blocked - it overwrites the status (here to
`Dirty`), so a writer other than the scheduled completion can change a
Cleaning facility. -/
theorem c3_counterexample :
    (match EnhancedApp.update_toilet_status 0 "cleaner" "cleaner@example.com"
        (some "Dirty") none { toilet_001 with status := "Cleaning" } with
     | .ok (t', _) => t'.status
     | .error _ => "") = "Dirty" := rfl

/-- C3 (amended): a simulator tick never transitions a facility whose
status is outside Clean/Moderate/Dirty (in particular a Cleaning one);
but the direct status-update endpoint checks only the requested status,
not the current one, so any valid requested status overwrites the
facility's status even while it is Cleaning. -/
theorem c3_amended :
    (∀ (now : ℚ) (t : Toilet) (d : TickDraws),
        t.status ≠ "Clean" → t.status ≠ "Moderate" → t.status ≠ "Dirty" →
        EnhancedApp.simulate_real_time_updates_tick now t d = (t, none))
    ∧ (∀ (now : ℚ) (role email s : String) (h : Option Int) (t : Toilet),
        (role = "cleaner" ∨ role = "admin") →
        (s = "Clean" ∨ s = "Moderate" ∨ s = "Dirty") →
        (match EnhancedApp.update_toilet_status now role email (some s) h t with
         | .ok (t', _) => t'.status = s
         | .error _ => False)) := by
  constructor
  · intro now t d h1 h2 h3
    simp [EnhancedApp.simulate_real_time_updates_tick, h1, h2, h3]
  · intro now role email s h t hrole hs
    have hr : ¬(role ≠ "cleaner" ∧ role ≠ "admin") := by
      rcases hrole with h' | h' <;> simp [h']
    have hst : ¬(s ≠ "Clean" ∧ s ≠ "Moderate" ∧ s ≠ "Dirty") := by
      rcases hs with h' | h' | h' <;> simp [h']
    unfold EnhancedApp.update_toilet_status
    rw [if_neg hr]
    dsimp only
    rw [if_neg hst]

/-- C3 witness: the simulator leaves a Cleaning facility untouched, and a
direct update with requested status `Moderate` succeeds and stores it. -/
theorem c3_witness :
    EnhancedApp.simulate_real_time_updates_tick 0
        { toilet_001 with status := "Cleaning" } valid_draws
      = ({ toilet_001 with status := "Cleaning" }, none)
    ∧ (match EnhancedApp.update_toilet_status 0 "cleaner" "cleaner@example.com"
          (some "Moderate") none toilet_001 with
       | .ok (t', _) => t'.status = "Moderate"
       | .error _ => False) := by
  constructor
  · exact c3_amended.1 0 _ valid_draws (by decide) (by decide) (by decide)
  · exact c3_amended.2 0 "cleaner" "cleaner@example.com" "Moderate" none
      toilet_001 (Or.inl rfl) (Or.inr (Or.inl rfl))

end Trinity
